import Mathlib

/-!
Verification of the session-manager core of chuk-mcp-game-server.

The development shallowly embeds the data model and operations of
`chuk_mcp_game_server/session/game_session.py`,
`chuk_mcp_game_server/session/game_session_manager.py` and
`chuk_mcp_game_server/session/models.py`.

Modelling conventions:
- Wall-clock instants are rationals (seconds since an arbitrary epoch);
  `datetime.now()` becomes an explicit `now : ℚ` parameter threaded through
  every operation that reads the clock.
- A Python `dict[str, GameSession]` becomes an insertion-ordered association
  list `List (String × GameSession)`; Python dicts preserve insertion order,
  which the code relies on (stable sort ties, iteration order).
- The opaque plugin game state is reduced to the single marker field the
  manager ever inspects, `is_completed` (`getattr(self.state, 'is_completed',
  False)`).
- Optional float / str arguments tested with Python truthiness (`if x and
  ...`) are embedded with explicit truthiness helpers: `None` and `0.0`
  (resp. `""`) are falsy.
-/

/-- Clock instants and durations, in seconds, as used by the embedding of
`datetime` arithmetic. -/
abbrev Time := ℚ

/-- One game session record (`GameSession` in game_session.py).  Only the
fields the manager reads are kept; the opaque plugin `state` is reduced to
its `is_completed` marker, the only thing the manager inspects. -/
structure GameSession where
  session_id : String
  game_type : String
  is_completed : Bool
  created_at : Time
  last_accessed : Time
  tags : List String
deriving Repr, DecidableEq

/-- Embeds `GameSession.get_age().total_seconds() / 3600`, i.e. `get_age_hours`. -/
def get_age_hours (now : Time) (s : GameSession) : ℚ :=
  (now - s.created_at) / 3600

/-- Embeds `GameSession.get_idle_time().total_seconds() / 3600`, i.e. `get_idle_hours`. -/
def get_idle_hours (now : Time) (s : GameSession) : ℚ :=
  (now - s.last_accessed) / 3600

/-- Embeds `GameSession.is_older_than(hours)`: `get_age_hours() > hours`. -/
def is_older_than (now : Time) (s : GameSession) (hours : ℚ) : Bool :=
  decide (get_age_hours now s > hours)

/-- Embeds `GameSession.is_idle_longer_than(hours)`: `get_idle_hours() > hours`. -/
def is_idle_longer_than (now : Time) (s : GameSession) (hours : ℚ) : Bool :=
  decide (get_idle_hours now s > hours)

/-- Embeds `GameSession.is_recent(hours=1.0)`: `get_idle_hours() < hours`. -/
def is_recent (now : Time) (s : GameSession) (hours : ℚ) : Bool :=
  decide (get_idle_hours now s < hours)

/-- Embeds `GameSession.is_stale(hours=24.0)`: `is_older_than(hours) and not
is_recent()`, where `is_recent` is called with its default of 1 hour. -/
def is_stale (now : Time) (s : GameSession) (hours : ℚ) : Bool :=
  is_older_than now s hours && !is_recent now s 1

/-- Embeds `GameSession.has_any_tag(tags)`: `any(tag in self.tags for tag in tags)`. -/
def has_any_tag (s : GameSession) (tags : List String) : Bool :=
  tags.any (fun t => s.tags.contains t)

/-- Python's `str.strip()`: drop whitespace from both ends (embedded over
the string's character list so it is kernel-computable). -/
def stripStr (s : String) : String :=
  String.mk
    (((s.data.dropWhile Char.isWhitespace).reverse.dropWhile
        Char.isWhitespace).reverse)

/-- The loop body of the `validate_tags` field validator of `GameSession`:
strip the tag, and append it unless it stripped to nothing or was already
collected. -/
def validate_tags_step (acc : List String) (tag : String) : List String :=
  let clean := stripStr tag
  if clean ≠ "" && !acc.contains clean then acc ++ [clean] else acc

/-- The `validate_tags` field validator of `GameSession` (and the identical
one on `SessionCreationRequest`): strip each tag, drop empty results, drop
duplicates keeping the first occurrence, preserving order. -/
def validate_tags (v : List String) : List String :=
  v.foldl validate_tags_step []

/-- Python truthiness of an `Optional[float]`: `None` and `0.0` are falsy. -/
def optRatTruthy : Option ℚ → Bool
  | none => false
  | some v => decide (v ≠ 0)

/-- Python truthiness of an `Optional[str]`: `None` and `""` are falsy. -/
def optStrTruthy : Option String → Bool
  | none => false
  | some s => !(s == "")

/-- Embeds `GameSession.matches_filter(game_type, tags, include_completed,
max_age_hours, max_idle_hours)`, translated clause by clause.  Each guard
mirrors a `if cond: return False` of the source; note the source tests
`if max_age_hours and ...` (Python truthiness), so a bound of `0` disables
the corresponding filter clause. -/
def matches_filter (now : Time) (s : GameSession) (game_type : Option String)
    (tags : List String) (include_completed : Bool)
    (max_age_hours max_idle_hours : Option ℚ) : Bool :=
  if optStrTruthy game_type && !(s.game_type == game_type.getD "") then false
  else if !include_completed && s.is_completed then false
  else if !tags.isEmpty && !has_any_tag s tags then false
  else if optRatTruthy max_age_hours
      && decide (get_age_hours now s > max_age_hours.getD 0) then false
  else if optRatTruthy max_idle_hours
      && decide (get_idle_hours now s > max_idle_hours.getD 0) then false
  else true

/-- The filter fields of `SessionFilter` (models.py) that
`GameSessionManager.list_sessions` forwards to `matches_filter`. -/
structure SessionFilter where
  game_type : Option String := none
  tags : List String := []
  include_completed : Bool := true
  max_age_hours : Option ℚ := none
  max_idle_hours : Option ℚ := none
deriving Repr, DecidableEq

/-- The state of a `GameSessionManager`: the session table (a Python dict,
embedded as an insertion-ordered association list), the active-session
pointer, and the `_max_sessions` configuration knob. -/
structure ManagerState where
  sessions : List (String × GameSession)
  active_session_id : Option String
  max_sessions : Nat
deriving Repr, DecidableEq

/-- Dict membership test `sid in self.sessions`. -/
def containsId (sessions : List (String × GameSession)) (sid : String) : Bool :=
  sessions.any (fun p => p.1 == sid)

/-- Dict lookup `self.sessions[sid]` (as an `Option`). -/
def findSession (sessions : List (String × GameSession)) (sid : String) :
    Option GameSession :=
  (sessions.find? (fun p => p.1 == sid)).map (fun p => p.2)

/-- Dict deletion `del self.sessions[sid]` (keys are unique in a dict, so
filtering the association list is the same operation). -/
def eraseSession (sessions : List (String × GameSession)) (sid : String) :
    List (String × GameSession) :=
  sessions.filter (fun p => !(p.1 == sid))

/-- One step of the maximum search performed by
`GameSessionManager._select_new_active_session` via
`sorted(..., key=last_accessed, reverse=True)[0]`: keep the later-accessed
record, and on a tie keep the earlier one (Python's sort is stable). -/
def laterAccessed (best q : String × GameSession) : String × GameSession :=
  if best.2.last_accessed < q.2.last_accessed then q else best

/-- Embeds `GameSessionManager._select_new_active_session()`: `None` on an empty
table, otherwise the id of the most recently accessed record (first such
record in insertion order, by sort stability). -/
def select_new_active_session (sessions : List (String × GameSession)) :
    Option String :=
  match sessions with
  | [] => none
  | p :: rest => some ((rest.foldl laterAccessed p).1)

/-- The slice of `ToolResult` (core/models.py) that the manager's operations
populate: the success flag plus the message / error strings of
`create_success_result` and `create_error_result`. -/
structure ToolResult where
  success : Bool
  message : Option String := none
  error : Option String := none
deriving Repr, DecidableEq

/-- Embeds `create_success_result(message=...)`. -/
def create_success_result (message : String) : ToolResult :=
  { success := true, message := some message, error := none }

/-- Embeds `create_error_result(error)`. -/
def create_error_result (error : String) : ToolResult :=
  { success := false, message := none, error := some error }

/-- Embeds `GameSessionManager.list_sessions(filter_criteria)`, restricted to the
filtering it performs: the records of the table that satisfy
`matches_filter` with the filter's fields. -/
def list_sessions_filtered (now : Time) (st : ManagerState)
    (fc : SessionFilter) : List (String × GameSession) :=
  st.sessions.filter (fun p =>
    matches_filter now p.2 fc.game_type fc.tags fc.include_completed
      fc.max_age_hours fc.max_idle_hours)

/-- Embeds `GameSessionManager.delete_session(session_id)`: error when the id is
unknown; otherwise remove the record and, when it was the active session,
elect the most recently accessed remaining record as the new active one. -/
def delete_session (st : ManagerState) (sid : String) :
    ToolResult × ManagerState :=
  if !containsId st.sessions sid then
    (create_error_result "Session not found", st)
  else
    let remaining := eraseSession st.sessions sid
    let newActive :=
      if st.active_session_id == some sid then
        select_new_active_session remaining
      else st.active_session_id
    (create_success_result "Session deleted",
      { st with sessions := remaining, active_session_id := newActive })

/-- Embeds `GameSessionManager.update_session_tags(session_id, tags)`: error when
the id is unknown; otherwise `get_session` touches the record, the
assignment `session.tags = tags` runs the `validate_tags` validator
(`validate_assignment` is on), and `session.touch()` updates
`last_accessed` again. -/
def update_session_tags (now : Time) (st : ManagerState) (sid : String)
    (tags : List String) : ToolResult × ManagerState :=
  if containsId st.sessions sid then
    (create_success_result "Updated tags",
      { st with
        sessions := st.sessions.map (fun p =>
          if p.1 == sid then
            (p.1, { p.2 with tags := validate_tags tags, last_accessed := now })
          else p) })
  else (create_error_result "Session not found", st)

/-- The `CleanupCriteria` model (models.py) with its declared fields and
defaults.  Its validators additionally require `max_age_hours > 0`,
`max_idle_hours > 0` and `max_idle_hours ≤ max_age_hours`; the theorems
below do not depend on them. -/
structure CleanupCriteria where
  max_age_hours : ℚ := 24
  max_idle_hours : ℚ := 12
  keep_completed : Bool := true
  keep_active : Bool := true
  keep_tagged : List String := []
  exclude_game_types : List String := []
  dry_run : Bool := false
deriving Repr, DecidableEq

/-- One entry of the `sessions_to_delete` report built by
`GameSessionManager.cleanup_sessions` (the numeric text interpolated into
`reason` is dropped, keeping the reason phrase). -/
structure CleanupEntry where
  session_id : String
  game_type : String
  reason : String
  age_hours : ℚ
  idle_hours : ℚ
  is_completed : Bool
  tags : List String
deriving Repr, DecidableEq

/-- The slice of `CleanupResult` (models.py) that `cleanup_sessions`
populates. -/
structure CleanupResult where
  sessions_deleted : Nat
  sessions_kept : Nat
  deleted_sessions : List CleanupEntry
  dry_run : Bool
deriving Repr, DecidableEq

/-- The per-record deletion decision of the first loop of
`GameSessionManager.cleanup_sessions`, translated branch by branch.  The
loop consults only `keep_active`, the age bound, `keep_completed` and the
idle bound; the declared `keep_tagged` and `exclude_game_types` criteria
fields are never read. -/
def cleanup_decision (now : Time) (active : Option String)
    (c : CleanupCriteria) (p : String × GameSession) : Bool :=
  if c.keep_active && (some p.1 == active) then false
  else if is_older_than now p.2 c.max_age_hours then true
  else if !(p.2.is_completed && c.keep_completed)
      && is_idle_longer_than now p.2 c.max_idle_hours then true
  else false

/-- The report entry recorded for a cleanup candidate. -/
def cleanupEntryOf (now : Time) (c : CleanupCriteria) (p : String × GameSession) :
    CleanupEntry :=
  { session_id := p.1
    game_type := p.2.game_type
    reason := if is_older_than now p.2 c.max_age_hours then "too old"
              else "idle too long"
    age_hours := get_age_hours now p.2
    idle_hours := get_idle_hours now p.2
    is_completed := p.2.is_completed
    tags := p.2.tags }

/-- Embeds `GameSessionManager.cleanup_sessions(criteria)`: collect the deletion
candidates over the whole table; under `dry_run` report them without any
mutation; otherwise delete them and, when `self.active_session_id not in
self.sessions` afterwards (which holds both when the active session was
deleted and when it was `None`), elect a new active session. -/
def cleanup_sessions (now : Time) (st : ManagerState) (c : CleanupCriteria) :
    ManagerState × CleanupResult :=
  let toDelete := st.sessions.filter (cleanup_decision now st.active_session_id c)
  let entries := toDelete.map (cleanupEntryOf now c)
  if c.dry_run then
    (st, { sessions_deleted := 0, sessions_kept := st.sessions.length,
           deleted_sessions := entries, dry_run := true })
  else
    let survivors :=
      st.sessions.filter (fun p => !cleanup_decision now st.active_session_id c p)
    let newActive :=
      match st.active_session_id with
      | none => select_new_active_session survivors
      | some a =>
          if containsId survivors a then some a
          else select_new_active_session survivors
    ({ st with sessions := survivors, active_session_id := newActive },
     { sessions_deleted := toDelete.length, sessions_kept := survivors.length,
       deleted_sessions := entries, dry_run := false })

/-- One per-item record of a bulk operation (`SessionOperation`,
models.py), reduced to the fields `bulk_delete_sessions` sets. -/
structure SessionOperation where
  session_id : String
  success : Bool
deriving Repr, DecidableEq

/-- The slice of `SessionBulkResult` (models.py) that
`bulk_delete_sessions` populates. -/
structure SessionBulkResult where
  total_requested : Nat
  successful : Nat
  failed : Nat
  results : List SessionOperation
deriving Repr, DecidableEq

/-- The body of the loop of `GameSessionManager.bulk_delete_sessions`: a
present id is deleted (re-electing the active session when it was the
deleted one) and logged as a success; an unknown id is logged as a per-item
failure. -/
def bulk_delete_step (acc : ManagerState × Nat × List SessionOperation)
    (sid : String) : ManagerState × Nat × List SessionOperation :=
  let st := acc.1
  if containsId st.sessions sid then
    let remaining := eraseSession st.sessions sid
    let newActive :=
      if st.active_session_id == some sid then
        select_new_active_session remaining
      else st.active_session_id
    ({ st with sessions := remaining, active_session_id := newActive },
     acc.2.1 + 1, acc.2.2 ++ [{ session_id := sid, success := true }])
  else
    (st, acc.2.1, acc.2.2 ++ [{ session_id := sid, success := false }])

/-- Embeds `GameSessionManager.bulk_delete_sessions(session_ids)`: fold the loop
body over the id list, then aggregate `total_requested = len(session_ids)`,
`successful`, `failed = len(session_ids) - successful`.  The overall call
returns a success result regardless of per-item failures. -/
def bulk_delete_sessions (st : ManagerState) (ids : List String) :
    ToolResult × ManagerState × SessionBulkResult :=
  let folded := ids.foldl bulk_delete_step (st, 0, [])
  (create_success_result "Bulk delete completed", folded.1,
    { total_requested := ids.length
      successful := folded.2.1
      failed := ids.length - folded.2.1
      results := folded.2.2 })

/-- The fields of `SessionCreationRequest` (models.py) that
`create_session` reads. -/
structure SessionCreationRequest where
  game_type : String
  session_id : Option String := none
  tags : List String := []
  auto_activate : Bool := true
deriving Repr, DecidableEq

/-- The behaviour of the plugin layer during one `create_session` call,
abstracted as data: whether `plugin_registry.get(game_type)` succeeds,
whether `plugin.validate_config` returns normally, and the result of
`plugin.create_initial_state` (`none` embeds a raised exception, `some b`
a state whose completion marker is `b`). -/
structure PluginBehavior where
  known : Bool
  configOk : Bool
  stateResult : Option Bool
deriving Repr, DecidableEq

/-- Embeds `GameSessionManager.create_session(request)`, translated step by step:
capacity check, plugin lookup, config validation, id resolution (the
caller's id or the generated `genId`), duplicate check, state construction,
then the commit that inserts the record and auto-activates it when no
active session exists.  Every failure is returned as an error result with
no mutation; exceptions inside the call are caught (embedded as the error
branches). -/
def create_session (now : Time) (st : ManagerState)
    (req : SessionCreationRequest) (pb : PluginBehavior) (genId : String) :
    ToolResult × ManagerState :=
  if st.sessions.length ≥ st.max_sessions then
    (create_error_result "Maximum number of sessions reached", st)
  else if !pb.known then
    (create_error_result "Unknown game type", st)
  else if !pb.configOk then
    (create_error_result "Configuration validation failed", st)
  else
    let sid := req.session_id.getD genId
    if containsId st.sessions sid then
      (create_error_result "Session already exists", st)
    else
      match pb.stateResult with
      | none => (create_error_result "Failed to create game state", st)
      | some completed =>
          let sess : GameSession :=
            { session_id := sid, game_type := req.game_type
              is_completed := completed, created_at := now
              last_accessed := now, tags := validate_tags req.tags }
          let newActive :=
            if req.auto_activate && (st.active_session_id == none) then some sid
            else st.active_session_id
          (create_success_result "Created session",
            { st with sessions := st.sessions ++ [(sid, sess)],
                      active_session_id := newActive })

/-- The disjunction of the five failure causes of `create_session` named by
the specification: capacity reached, unknown game type, config validation
error, duplicate id, state-construction exception. -/
def create_session_fails (st : ManagerState) (req : SessionCreationRequest)
    (pb : PluginBehavior) (genId : String) : Prop :=
  st.sessions.length ≥ st.max_sessions ∨ pb.known = false ∨
    pb.configOk = false ∨
    containsId st.sessions (req.session_id.getD genId) = true ∨
    pb.stateResult = none

/-- The fields of the dict returned by
`GameSessionManager.get_health_status()` that the claims mention.  The
status is computed exactly as in the source: `"healthy" if len(sessions) <
max_sessions * 0.9 else "warning"`. -/
structure HealthStatus where
  status : String
  total_sessions : Nat
  max_sessions : Nat
  utilization_percent : ℚ
  stale_sessions : Nat
deriving Repr, DecidableEq

/-- Embeds `GameSessionManager.get_health_status()`. -/
def get_health_status (now : Time) (st : ManagerState) : HealthStatus :=
  { status :=
      if (st.sessions.length : ℚ) < (st.max_sessions : ℚ) * (9 / 10) then
        "healthy"
      else "warning"
    total_sessions := st.sessions.length
    max_sessions := st.max_sessions
    utilization_percent := (st.sessions.length : ℚ) / (st.max_sessions : ℚ) * 100
    stale_sessions := (st.sessions.filter (fun p => is_stale now p.2 24)).length }

/-- Embeds `SessionManagerHealth.determine_status` (models.py), the status rule the
health model itself declares: `critical` under memory pressure or
utilization above 95, `warning` above 80 utilization or more than 10 stale
sessions, else `healthy`. -/
def determine_status (utilization : ℚ) (stale_count : Nat)
    (memory_pressure : Bool) : String :=
  if memory_pressure || decide (utilization > 95) then "critical"
  else if decide (utilization > 80) || decide (stale_count > 10) then "warning"
  else "healthy"

/-- The decimal numeral of a natural number, embedding the f-string
formatting `f"{counter}"` of the collision counter, written with Mathlib's
`Nat.digits` (most significant digit first). -/
def decimalRepr (n : Nat) : String :=
  String.mk (((Nat.digits 10 n).map Nat.digitChar).reverse)

/-- Embeds `f"{game_type}-{date_part}{time_part}-{short_uuid}"`, the base id
composed by `GameSessionManager._generate_session_id`; the `strftime`
fragments and the 6-hex-character uuid slice are parameters. -/
def session_id_base (game_type date_part time_part short_uuid : String) :
    String :=
  game_type ++ "-" ++ date_part ++ time_part ++ "-" ++ short_uuid

/-- The candidate tried when the collision counter is `c`: the base id for
`c = 0`, then `f"{base_id}-{counter}"` for each increment. -/
def candidateId (base : String) (c : Nat) : String :=
  if c = 0 then base else base ++ "-" ++ decimalRepr c

/-- Decimal digit characters determine the digit (a finite check backing
the injectivity of the numeral formatting). -/
theorem digitChar_inj_lt : ∀ a < 10, ∀ b < 10,
    Nat.digitChar a = Nat.digitChar b → a = b := by decide

/-- Mapping `Nat.digitChar` over digit lists (entries below 10) is
injective. -/
theorem map_digitChar_inj : ∀ l₁ l₂ : List Nat, (∀ x ∈ l₁, x < 10) →
    (∀ x ∈ l₂, x < 10) → l₁.map Nat.digitChar = l₂.map Nat.digitChar →
    l₁ = l₂ := by
  intro l₁
  induction l₁ with
  | nil => intro l₂ _ _ h; cases l₂ <;> simp_all
  | cons a t ih =>
      intro l₂ h₁ h₂ h
      cases l₂ with
      | nil => simp_all
      | cons b u =>
          simp only [List.map_cons, List.cons.injEq] at h
          have ha : a = b :=
            digitChar_inj_lt a (h₁ a (by simp)) b (h₂ b (by simp)) h.1
          have ht : t = u :=
            ih u (fun x hx => h₁ x (by simp [hx]))
              (fun x hx => h₂ x (by simp [hx])) h.2
          simp [ha, ht]

/-- The decimal numeral formatting is injective. -/
theorem decimalRepr_injective : Function.Injective decimalRepr := by
  intro a b h
  have hdata := congrArg String.data h
  simp only [decimalRepr] at hdata
  have hmap : (Nat.digits 10 a).map Nat.digitChar
      = (Nat.digits 10 b).map Nat.digitChar :=
    List.reverse_injective hdata
  have hdig : Nat.digits 10 a = Nat.digits 10 b :=
    map_digitChar_inj _ _
      (fun x hx => Nat.digits_lt_base (by norm_num) hx)
      (fun x hx => Nat.digits_lt_base (by norm_num) hx) hmap
  exact Nat.digits.injective 10 hdig

/-- Appending to a fixed string is injective. -/
theorem string_append_left_cancel {s t u : String} (h : s ++ t = s ++ u) :
    t = u := by
  have hd := congrArg String.data h
  simp only [String.data_append] at hd
  exact String.ext (List.append_cancel_left hd)

/-- Distinct collision-counter values yield distinct candidate ids. -/
theorem candidateId_injective (base : String) :
    Function.Injective (candidateId base) := by
  have hlen : ∀ c : Nat, c ≠ 0 → base.length < (candidateId base c).length := by
    intro c hc
    simp only [candidateId, if_neg hc, String.length_append]
    have : 0 < (decimalRepr c).length := by
      simp only [decimalRepr, String.length_mk, List.length_reverse,
        List.length_map]
      have : Nat.digits 10 c ≠ [] := Nat.digits_ne_nil_iff_ne_zero.mpr hc
      exact List.length_pos.mpr this
    omega
  intro a b h
  by_cases ha : a = 0 <;> by_cases hb : b = 0
  · omega
  · exfalso
    have := hlen b hb
    rw [← h] at this
    simp [candidateId, if_pos ha] at this
  · exfalso
    have := hlen a ha
    rw [h] at this
    simp [candidateId, if_pos hb] at this
  · simp only [candidateId, if_neg ha, if_neg hb] at h
    have h2 : "-" ++ decimalRepr a = "-" ++ decimalRepr b := by
      have := string_append_left_cancel (s := base)
        (t := "-" ++ decimalRepr a) (u := "-" ++ decimalRepr b)
      apply this
      simpa [String.append_assoc] using h
    exact decimalRepr_injective (string_append_left_cancel h2)

/-- Termination of the collision loop of `_generate_session_id`: the table
is finite and the candidates are pairwise distinct, so some counter value
yields an id that is not a key of the table. -/
theorem exists_fresh_candidate (table : List String) (base : String) :
    ∃ c, candidateId base c ∉ table := by
  by_contra hc
  push_neg at hc
  have hsub : ∀ c ∈ Finset.range (table.length + 1),
      candidateId base c ∈ table.toFinset :=
    fun c _ => List.mem_toFinset.mpr (hc c)
  have hinj : Set.InjOn (candidateId base) (Finset.range (table.length + 1)) :=
    fun a _ b _ h => candidateId_injective base h
  have hcard := Finset.card_le_card_of_injOn (candidateId base) hsub hinj
  have hle := List.toFinset_card_le table
  simp only [Finset.card_range] at hcard
  omega

/-- Embeds `GameSessionManager._generate_session_id`, with the `while session_id in
self.sessions` loop embedded as the least collision-counter value whose
candidate is not a live key (which is exactly the value the loop stops
at). -/
def generate_session_id (table : List String) (base : String) : String :=
  candidateId base (Nat.find (exists_fresh_candidate table base))

/-- Fixture: a session created at epoch 0 and last accessed at 36000 s
(10 h). -/
def sessA : GameSession :=
  { session_id := "a", game_type := "demo", is_completed := false
    created_at := 0, last_accessed := 36000, tags := [] }

/-- Fixture: a session created at epoch 0 and last accessed at 18000 s
(5 h). -/
def sessB : GameSession :=
  { session_id := "b", game_type := "demo", is_completed := false
    created_at := 0, last_accessed := 18000, tags := [] }

/-- Fixture: an old, idle, tagged, uncompleted session. -/
def sessOld : GameSession :=
  { session_id := "s1", game_type := "demo", is_completed := false
    created_at := 0, last_accessed := 0, tags := ["important"] }

/-- Fixture: a manager holding only `sessA`, which is active. -/
def stA : ManagerState :=
  { sessions := [("a", sessA)], active_session_id := some "a"
    max_sessions := 100 }

/-- Fixture: a manager holding `sessA` (active) and `sessB`. -/
def stAB : ManagerState :=
  { sessions := [("a", sessA), ("b", sessB)], active_session_id := some "a"
    max_sessions := 100 }

/-- Fixture: a manager holding only `sessB`, with no active session. -/
def stB : ManagerState :=
  { sessions := [("b", sessB)], active_session_id := none
    max_sessions := 100 }

/-- Fixture: a manager holding only the old tagged session, with no active
session. -/
def stOld : ManagerState :=
  { sessions := [("s1", sessOld)], active_session_id := none
    max_sessions := 100 }

/-- Fixture: a manager at full capacity (`max_sessions = 1` and one live
session). -/
def stFull : ManagerState :=
  { sessions := [("a", sessA)], active_session_id := some "a"
    max_sessions := 1 }

/-- Fixture: an empty manager configured with `max_sessions = 0`. -/
def st0 : ManagerState :=
  { sessions := [], active_session_id := none, max_sessions := 0 }

/-- Fixture: a plain creation request for game type demo. -/
def reqDemo : SessionCreationRequest := { game_type := "demo" }

/-- Fixture: a plugin that succeeds at every step. -/
def pbOk : PluginBehavior :=
  { known := true, configOk := true, stateResult := some false }

/-- Fixture: default cleanup criteria with the tag exemption
`keep_tagged = ["important"]` requested and `dry_run = false`. -/
def critKeep : CleanupCriteria := { keep_tagged := ["important"] }

/-- Fixture: a session filter whose age bound is the falsy value 0. -/
def fcZero : SessionFilter := { max_age_hours := some 0 }

/-- Fixture: a session filter bounding both age and idle time by 10 h. -/
def fcTen : SessionFilter :=
  { max_age_hours := some 10, max_idle_hours := some 10 }

/-- The maximum search of `_select_new_active_session` returns its seed or
a list element. -/
theorem foldl_laterAccessed_mem :
    ∀ (rest : List (String × GameSession)) (p : String × GameSession),
    rest.foldl laterAccessed p = p ∨ rest.foldl laterAccessed p ∈ rest := by
  intro rest
  induction rest with
  | nil => intro p; left; rfl
  | cons r rs ih =>
      intro p
      rw [List.foldl_cons]
      rcases ih (laterAccessed p r) with h | h
      · rw [h]
        unfold laterAccessed
        split
        · right; exact List.mem_cons_self r rs
        · left; rfl
      · right; exact List.mem_cons_of_mem r h

/-- The maximum search result is at least as recently accessed as its
seed. -/
theorem foldl_laterAccessed_ge_init :
    ∀ (rest : List (String × GameSession)) (p : String × GameSession),
    p.2.last_accessed ≤ (rest.foldl laterAccessed p).2.last_accessed := by
  intro rest
  induction rest with
  | nil => intro p; exact le_refl _
  | cons r rs ih =>
      intro p
      rw [List.foldl_cons]
      refine le_trans ?_ (ih (laterAccessed p r))
      unfold laterAccessed
      split
      next h => exact le_of_lt h
      next h => exact le_refl _

/-- The maximum search result is at least as recently accessed as every
list element. -/
theorem foldl_laterAccessed_ge_mem :
    ∀ (rest : List (String × GameSession)) (p q : String × GameSession),
    q ∈ rest → q.2.last_accessed ≤ (rest.foldl laterAccessed p).2.last_accessed := by
  intro rest
  induction rest with
  | nil => intro p q h; cases h
  | cons r rs ih =>
      intro p q hq
      rw [List.foldl_cons]
      rcases List.mem_cons.mp hq with h | h
      · subst h
        refine le_trans ?_ (foldl_laterAccessed_ge_init rs (laterAccessed p q))
        unfold laterAccessed
        split
        next => exact le_refl _
        next hlt => exact le_of_not_lt hlt
      · exact ih (laterAccessed p r) q h

/-- On a non-empty table, `_select_new_active_session` elects a table
record whose `last_accessed` is maximal. -/
theorem select_new_active_session_spec (sessions : List (String × GameSession))
    (h : sessions ≠ []) :
    ∃ p, p ∈ sessions ∧ select_new_active_session sessions = some p.1 ∧
      ∀ q ∈ sessions, q.2.last_accessed ≤ p.2.last_accessed := by
  cases sessions with
  | nil => exact absurd rfl h
  | cons p rest =>
      refine ⟨rest.foldl laterAccessed p, ?_, rfl, ?_⟩
      · rcases foldl_laterAccessed_mem rest p with h1 | h1
        · rw [h1]; exact List.mem_cons_self p rest
        · exact List.mem_cons_of_mem _ h1
      · intro q hq
        rcases List.mem_cons.mp hq with h1 | h1
        · subst h1; exact foldl_laterAccessed_ge_init rest q
        · exact foldl_laterAccessed_ge_mem rest p q h1

/-- The success counter of the bulk-delete loop grows by at most one per
processed id. -/
theorem bulk_fold_successful_le :
    ∀ (ids : List String) (acc : ManagerState × Nat × List SessionOperation),
    (ids.foldl bulk_delete_step acc).2.1 ≤ acc.2.1 + ids.length := by
  intro ids
  induction ids with
  | nil => intro acc; simp
  | cons i is ih =>
      intro acc
      rw [List.foldl_cons]
      refine le_trans (ih (bulk_delete_step acc i)) ?_
      have hstep : (bulk_delete_step acc i).2.1 ≤ acc.2.1 + 1 := by
        unfold bulk_delete_step
        dsimp only
        split
        next => simp
        next => simp
      simp only [List.length_cons]
      omega

/-- Updating the record stored under a key commutes with looking the key
up: the lookup of the mapped table is the mapped lookup. -/
theorem find?_map_update (l : List (String × GameSession)) (sid : String)
    (f : GameSession → GameSession) :
    (l.map (fun p => if p.1 == sid then (p.1, f p.2) else p)).find?
        (fun p => p.1 == sid)
      = (l.find? (fun p => p.1 == sid)).map (fun p => (p.1, f p.2)) := by
  induction l with
  | nil => rfl
  | cons p t ih =>
      simp only [List.map_cons]
      by_cases h : p.1 = sid
      · have hb : (p.1 == sid) = true := beq_iff_eq.mpr h
        rw [if_pos hb,
          @List.find?_cons_of_pos _ (fun q => q.1 == sid) (p.1, f p.2) _ hb,
          @List.find?_cons_of_pos _ (fun q => q.1 == sid) p _ hb]
        rfl
      · have hb : ¬ (p.1 == sid) = true := by simp [beq_iff_eq, h]
        rw [if_neg hb,
          @List.find?_cons_of_neg _ (fun q => q.1 == sid) p _ hb,
          @List.find?_cons_of_neg _ (fun q => q.1 == sid) p _ hb]
        exact ih

/-- The tag-cleaning fold preserves duplicate-freedom of the accumulator. -/
theorem validate_tags_fold_nodup :
    ∀ (v acc : List String), acc.Nodup → (v.foldl validate_tags_step acc).Nodup := by
  intro v
  induction v with
  | nil => intro acc h; exact h
  | cons a t ih =>
      intro acc h
      rw [List.foldl_cons]
      apply ih
      simp only [validate_tags_step]
      split
      next hcond =>
        have hnm : stripStr a ∉ acc := by
          have := (Bool.and_eq_true _ _).mp hcond
          simpa using this.2
        simp [List.nodup_append, h, hnm]
      next => exact h

/-- Every element the tag-cleaning fold produces was in the accumulator or
is the non-empty strip of an input tag. -/
theorem validate_tags_fold_mem :
    ∀ (v acc : List String) (t : String), t ∈ v.foldl validate_tags_step acc →
      t ∈ acc ∨ ∃ u ∈ v, t = stripStr u ∧ t ≠ "" := by
  intro v
  induction v with
  | nil => intro acc t h; left; exact h
  | cons a u ih =>
      intro acc t h
      rw [List.foldl_cons] at h
      rcases ih _ t h with h1 | h1
      · simp only [validate_tags_step] at h1
        split at h1
        next hcond =>
          rcases List.mem_append.mp h1 with h2 | h2
          · left; exact h2
          · right
            have hne : stripStr a ≠ "" := by
              have := (Bool.and_eq_true _ _).mp hcond
              simpa using this.1
            have ht : t = stripStr a := by simpa using h2
            exact ⟨a, List.mem_cons_self a u, ht, ht ▸ hne⟩
        next => left; exact h1
      · rcases h1 with ⟨w, hw, hwt⟩
        right; exact ⟨w, List.mem_cons_of_mem a hw, hwt⟩

/-- Cleaned tag lists are duplicate-free. -/
theorem validate_tags_nodup (v : List String) : (validate_tags v).Nodup :=
  validate_tags_fold_nodup v [] List.nodup_nil

/-- Every cleaned tag is the non-empty strip of some input tag. -/
theorem validate_tags_mem (v : List String) (t : String)
    (h : t ∈ validate_tags v) : ∃ u ∈ v, t = stripStr u ∧ t ≠ "" := by
  rcases validate_tags_fold_mem v [] t h with h1 | h1
  · cases h1
  · exact h1

/-- C1: the tag exemption is not honoured by the code.  With
`keep_tagged = ["important"]` and `dry_run = false`, `cleanup_sessions`
deletes the session `s1` even though its tag list intersects
`keep_tagged`: the cleanup loop never reads `keep_tagged` (nor
`exclude_game_types`), so the over-age session is removed. -/
theorem cleanup_deletes_keep_tagged_session :
    "important" ∈ critKeep.keep_tagged ∧
    critKeep.dry_run = false ∧
    findSession stOld.sessions "s1" = some sessOld ∧
    "important" ∈ sessOld.tags ∧
    get_age_hours 360000 sessOld > critKeep.max_age_hours ∧
    (cleanup_sessions 360000 stOld critKeep).1.sessions = [] := by
  have hdec : cleanup_decision 360000 none critKeep ("s1", sessOld) = true := by
    norm_num [cleanup_decision, is_older_than, get_age_hours, sessOld, critKeep]
  have hdry : critKeep.dry_run = false := rfl
  refine ⟨by decide, rfl, rfl, by decide, ?_, ?_⟩
  · norm_num [get_age_hours, sessOld, critKeep]
  · simp [cleanup_sessions, stOld, List.filter, hdec, hdry]

/-- C2: the health status rule of the claim is not what
`get_health_status` computes.  At full capacity (utilization 100 % > 95,
no memory pressure) the code reports `"warning"` (its only rule is
`len(sessions) < max_sessions * 0.9`), while the
`SessionManagerHealth.determine_status` rule the claim states would
report `"critical"` on the same metrics. -/
theorem health_status_never_critical :
    (get_health_status 36000 stFull).utilization_percent > 95 ∧
    (get_health_status 36000 stFull).status = "warning" ∧
    determine_status (get_health_status 36000 stFull).utilization_percent
      (get_health_status 36000 stFull).stale_sessions false = "critical" := by
  have hutil : (get_health_status 36000 stFull).utilization_percent = 100 := by
    norm_num [get_health_status, stFull]
  refine ⟨?_, ?_, ?_⟩
  · rw [hutil]; norm_num
  · norm_num [get_health_status, stFull]
  · rw [hutil]
    norm_num [determine_status]

/-- C3: a dry-run cleanup mutates nothing: the manager state (session
table and active pointer) is returned unchanged, zero deletions are
reported, and the result carries exactly the candidate decision
entries. -/
theorem cleanup_dry_run_no_mutation (now : Time) (st : ManagerState)
    (c : CleanupCriteria) (h : c.dry_run = true) :
    (cleanup_sessions now st c).1 = st ∧
    (cleanup_sessions now st c).2.sessions_deleted = 0 ∧
    (cleanup_sessions now st c).2.deleted_sessions
      = (st.sessions.filter (cleanup_decision now st.active_session_id c)).map
          (cleanupEntryOf now c) := by
  refine ⟨?_, ?_, ?_⟩ <;> simp [cleanup_sessions, h]

/-- C3 witness: the dry-run frame property instantiated on the concrete
manager `stOld` with over-age content and default bounds. -/
theorem cleanup_dry_run_no_mutation_witness :
    (cleanup_sessions 360000 stOld { dry_run := true }).1 = stOld ∧
    (cleanup_sessions 360000 stOld { dry_run := true }).2.sessions_deleted = 0 ∧
    (cleanup_sessions 360000 stOld { dry_run := true }).2.deleted_sessions
      = (stOld.sessions.filter
          (cleanup_decision 360000 stOld.active_session_id { dry_run := true })).map
          (cleanupEntryOf 360000 { dry_run := true }) :=
  cleanup_dry_run_no_mutation 360000 stOld { dry_run := true } rfl

/-- C10: a non-dry-run cleanup on a manager with no active session
installs one: when the surviving table is non-empty, the new active id is
that of a surviving record with maximal `last_accessed` (the
`active_session_id not in self.sessions` test is vacuously true for
`None`, so `_select_new_active_session` runs). -/
theorem cleanup_installs_active_when_none (now : Time) (st : ManagerState)
    (c : CleanupCriteria) (h1 : st.active_session_id = none)
    (h2 : c.dry_run = false)
    (hne : st.sessions.filter
        (fun p => !cleanup_decision now st.active_session_id c p) ≠ []) :
    ∃ p, p ∈ (cleanup_sessions now st c).1.sessions ∧
      (cleanup_sessions now st c).1.active_session_id = some p.1 ∧
      ∀ q ∈ (cleanup_sessions now st c).1.sessions,
        q.2.last_accessed ≤ p.2.last_accessed := by
  have hsess : (cleanup_sessions now st c).1.sessions
      = st.sessions.filter
          (fun p => !cleanup_decision now st.active_session_id c p) := by
    simp [cleanup_sessions, h2]
  have hact : (cleanup_sessions now st c).1.active_session_id
      = select_new_active_session (st.sessions.filter
          (fun p => !cleanup_decision now st.active_session_id c p)) := by
    simp [cleanup_sessions, h1, h2]
  rcases select_new_active_session_spec _ hne with ⟨p, hp, hsel, hmax⟩
  refine ⟨p, ?_, ?_, ?_⟩
  · rw [hsess]; exact hp
  · rw [hact]; exact hsel
  · intro q hq
    rw [hsess] at hq
    exact hmax q hq

/-- C10 witness: cleaning up `stB` (no active session, one fresh-enough
record) with default criteria elects `sessB` as the new active session. -/
theorem cleanup_installs_active_when_none_witness :
    ∃ p, p ∈ (cleanup_sessions 18000 stB {}).1.sessions ∧
      (cleanup_sessions 18000 stB {}).1.active_session_id = some p.1 ∧
      ∀ q ∈ (cleanup_sessions 18000 stB {}).1.sessions,
        q.2.last_accessed ≤ p.2.last_accessed :=
  cleanup_installs_active_when_none 18000 stB {} rfl rfl (by
    have hdec : cleanup_decision 18000 none {} ("b", sessB) = false := by
      norm_num [cleanup_decision, is_older_than, is_idle_longer_than,
        get_age_hours, get_idle_hours, sessB]
    simp [stB, List.filter, hdec])

/-- C4: deleting the session that is both present and active removes it
and elects as new active session a remaining record with the greatest
`last_accessed` (or none when no record remains). -/
theorem delete_active_session_elects_most_recent (st : ManagerState)
    (sid : String) (h1 : containsId st.sessions sid = true)
    (h2 : st.active_session_id = some sid) :
    (delete_session st sid).2.sessions = eraseSession st.sessions sid ∧
    (eraseSession st.sessions sid = [] →
      (delete_session st sid).2.active_session_id = none) ∧
    (eraseSession st.sessions sid ≠ [] →
      ∃ p, p ∈ eraseSession st.sessions sid ∧
        (delete_session st sid).2.active_session_id = some p.1 ∧
        ∀ q ∈ eraseSession st.sessions sid,
          q.2.last_accessed ≤ p.2.last_accessed) := by
  have hds : (delete_session st sid).2
      = { st with sessions := eraseSession st.sessions sid,
                  active_session_id :=
                    select_new_active_session (eraseSession st.sessions sid) } := by
    simp [delete_session, h1, h2]
  refine ⟨by rw [hds], ?_, ?_⟩
  · intro hnil
    rw [hds]
    simp [hnil, select_new_active_session]
  · intro hne
    rcases select_new_active_session_spec _ hne with ⟨p, hp, hsel, hmax⟩
    refine ⟨p, hp, ?_, hmax⟩
    rw [hds]
    exact hsel

/-- C4 witness: deleting the active session of `stAB` leaves `sessB`,
which becomes active as the most recently accessed survivor. -/
theorem delete_active_session_elects_most_recent_witness :
    (delete_session stAB "a").2.sessions = eraseSession stAB.sessions "a" ∧
    (eraseSession stAB.sessions "a" = [] →
      (delete_session stAB "a").2.active_session_id = none) ∧
    (eraseSession stAB.sessions "a" ≠ [] →
      ∃ p, p ∈ eraseSession stAB.sessions "a" ∧
        (delete_session stAB "a").2.active_session_id = some p.1 ∧
        ∀ q ∈ eraseSession stAB.sessions "a",
          q.2.last_accessed ≤ p.2.last_accessed) :=
  delete_active_session_elects_most_recent stAB "a" rfl rfl

/-- C5: on every enumerated failure cause (capacity reached, unknown game
type, config validation error, duplicate id, state-construction
exception), `create_session` returns a failure result and leaves the
manager state — session table and active pointer — exactly as it was. -/
theorem create_session_failure_no_mutation (now : Time) (st : ManagerState)
    (req : SessionCreationRequest) (pb : PluginBehavior) (genId : String)
    (h : create_session_fails st req pb genId) :
    (create_session now st req pb genId).1.success = false ∧
    (create_session now st req pb genId).2 = st := by
  obtain ⟨known, configOk, stateResult⟩ := pb
  have h5 : st.sessions.length ≥ st.max_sessions ∨ known = false ∨
      configOk = false ∨
      containsId st.sessions (req.session_id.getD genId) = true ∨
      stateResult = none := h
  simp only [create_session]
  split_ifs with hc1 hc2 hc3 hc4 hc5 <;> try exact ⟨rfl, rfl⟩
  all_goals
    cases stateResult with
    | none => exact ⟨rfl, rfl⟩
    | some completed =>
        exfalso
        rcases h5 with h5 | h5 | h5 | h5 | h5
        · exact hc1 h5
        · rw [h5] at hc2; simp at hc2
        · rw [h5] at hc3; simp at hc3
        · exact hc4 h5
        · exact Option.noConfusion h5

/-- C5 witness: at capacity zero every request fails and the empty state
is returned untouched. -/
theorem create_session_failure_no_mutation_witness :
    (create_session 0 st0 reqDemo pbOk "g").1.success = false ∧
    (create_session 0 st0 reqDemo pbOk "g").2 = st0 :=
  create_session_failure_no_mutation 0 st0 reqDemo pbOk "g"
    (Or.inl (by decide))

/-- C6: every bulk delete reports `total_requested` equal to the length of
the id list, `successful + failed = total_requested`, and overall success;
per-item independence on the concrete mixed batch: one known and one
unknown id give totals 2/1/1, a success log for the known id, a failure
log for the unknown one, and the known session is gone. -/
theorem bulk_delete_totals :
    (∀ (st : ManagerState) (ids : List String),
      (bulk_delete_sessions st ids).2.2.total_requested = ids.length ∧
      (bulk_delete_sessions st ids).2.2.successful
          + (bulk_delete_sessions st ids).2.2.failed = ids.length ∧
      (bulk_delete_sessions st ids).1.success = true) ∧
    ((bulk_delete_sessions stA ["a", "b"]).2.2.total_requested = 2 ∧
     (bulk_delete_sessions stA ["a", "b"]).2.2.successful = 1 ∧
     (bulk_delete_sessions stA ["a", "b"]).2.2.failed = 1 ∧
     (bulk_delete_sessions stA ["a", "b"]).2.2.results
        = [{ session_id := "a", success := true },
           { session_id := "b", success := false }] ∧
     containsId (bulk_delete_sessions stA ["a", "b"]).2.1.sessions "a"
        = false) := by
  constructor
  · intro st ids
    refine ⟨rfl, ?_, rfl⟩
    have hle : (ids.foldl bulk_delete_step (st, 0, [])).2.1 ≤ 0 + ids.length :=
      bulk_fold_successful_le ids (st, 0, [])
    simp only [bulk_delete_sessions]
    omega
  · refine ⟨rfl, rfl, rfl, rfl, rfl⟩

/-- C7 counterexample: a bound of 0 is Python-falsy, so
`matches_filter` skips the age clause entirely: with
`max_age_hours = 0` the 5-hour-old `sessB` is still returned by the
listing filter although its age exceeds the bound. -/
theorem filter_age_bound_zero_counterexample :
    fcZero.max_age_hours = some 0 ∧
    ("b", sessB) ∈ list_sessions_filtered 18000 stB fcZero ∧
    get_age_hours 18000 sessB > 0 := by
  have hmatch : matches_filter 18000 sessB fcZero.game_type fcZero.tags
      fcZero.include_completed fcZero.max_age_hours fcZero.max_idle_hours
      = true := by
    norm_num [matches_filter, fcZero, optRatTruthy, optStrTruthy]
  refine ⟨rfl, ?_, ?_⟩
  · simp [list_sessions_filtered, stB, List.filter, hmatch]
  · norm_num [get_age_hours, sessB]

/-- C7 (amended): every session returned by the listing filter satisfies
`age ≤ max_age_hours` whenever that bound is provided and non-zero, and
`idle ≤ max_idle_hours` whenever that bound is provided and non-zero (a
zero bound is falsy in Python and disables the clause). -/
theorem list_sessions_age_idle_bounds (now : Time) (st : ManagerState)
    (fc : SessionFilter) (p : String × GameSession)
    (hp : p ∈ list_sessions_filtered now st fc) :
    (∀ a, fc.max_age_hours = some a → a ≠ 0 →
      get_age_hours now p.2 ≤ a) ∧
    (∀ b, fc.max_idle_hours = some b → b ≠ 0 →
      get_idle_hours now p.2 ≤ b) := by
  have hm := (List.mem_filter.mp hp).2
  unfold matches_filter at hm
  split_ifs at hm with h1 h2 h3 h4 h5
  constructor
  · intro a ha hane
    rw [ha] at h4
    simp [optRatTruthy, hane] at h4
    exact h4
  · intro b hb hbne
    rw [hb] at h5
    simp [optRatTruthy, hbne] at h5
    exact h5

/-- C7 witness: with both bounds set to 10 h, `sessB` (age 5 h, idle 0 h
at the chosen instant) is returned and satisfies both bounds. -/
theorem list_sessions_age_idle_bounds_witness :
    (∀ a, fcTen.max_age_hours = some a → a ≠ 0 →
      get_age_hours 18000 ("b", sessB).2 ≤ a) ∧
    (∀ b, fcTen.max_idle_hours = some b → b ≠ 0 →
      get_idle_hours 18000 ("b", sessB).2 ≤ b) :=
  list_sessions_age_idle_bounds 18000 stB fcTen ("b", sessB) (by
    have hmatch : matches_filter 18000 sessB fcTen.game_type fcTen.tags
        fcTen.include_completed fcTen.max_age_hours fcTen.max_idle_hours
        = true := by
      norm_num [matches_filter, fcTen, optRatTruthy, optStrTruthy,
        get_age_hours, get_idle_hours, sessB]
    simp [list_sessions_filtered, stB, List.filter, hmatch])

/-- C8: `update_session_tags` on an existing session stores exactly the
cleaned input list — each entry stripped, empty results dropped,
duplicates dropped keeping the first occurrence — and the cleaned list is
duplicate-free with only non-empty stripped entries; on the concrete
input x, y, x the stored list is x, y. -/
theorem update_session_tags_replaces_cleaned (now : Time) (st : ManagerState)
    (sid : String) (tags : List String)
    (h : containsId st.sessions sid = true) :
    (update_session_tags now st sid tags).1.success = true ∧
    findSession (update_session_tags now st sid tags).2.sessions sid
      = (findSession st.sessions sid).map
          (fun s => { s with tags := validate_tags tags,
                             last_accessed := now }) ∧
    (validate_tags tags).Nodup ∧
    (∀ t ∈ validate_tags tags, ∃ u ∈ tags, t = stripStr u ∧ t ≠ "") ∧
    validate_tags ["x", "y", "x"] = ["x", "y"] := by
  have hif : update_session_tags now st sid tags
      = (create_success_result "Updated tags",
         { st with sessions := st.sessions.map (fun p =>
             if p.1 == sid then
               (p.1, { p.2 with tags := validate_tags tags,
                                last_accessed := now })
             else p) }) := by
    simp [update_session_tags, h]
  refine ⟨?_, ?_, validate_tags_nodup tags, validate_tags_mem tags, by decide⟩
  · rw [hif]; rfl
  · rw [hif]
    simp only [findSession]
    rw [find?_map_update st.sessions sid
      (fun s => { s with tags := validate_tags tags, last_accessed := now })]
    cases List.find? (fun p => p.1 == sid) st.sessions <;> rfl

/-- C8 witness: updating the tags of the live session of `stA` with the
input x, y, x stores the deduplicated list x, y. -/
theorem update_session_tags_replaces_cleaned_witness :
    (update_session_tags 0 stA "a" ["x", "y", "x"]).1.success = true ∧
    findSession (update_session_tags 0 stA "a" ["x", "y", "x"]).2.sessions "a"
      = (findSession stA.sessions "a").map
          (fun s => { s with tags := validate_tags ["x", "y", "x"],
                             last_accessed := 0 }) ∧
    (validate_tags ["x", "y", "x"]).Nodup ∧
    (∀ t ∈ validate_tags ["x", "y", "x"],
      ∃ u ∈ ["x", "y", "x"], t = stripStr u ∧ t ≠ "") ∧
    validate_tags ["x", "y", "x"] = ["x", "y"] :=
  update_session_tags_replaces_cleaned 0 stA "a" ["x", "y", "x"] rfl

/-- C9: the id generated when the caller omits one is the composed base
`game_type-date_part time_part-short_uuid` or that base extended by a
dash and a non-zero decimal counter, and it is never a key of the live
session table — so repeated creations (same game type, same minute, any
uuid draw) always receive ids distinct from every live one. -/
theorem generate_session_id_fresh_and_formatted (table : List String)
    (game_type date_part time_part short_uuid : String) :
    generate_session_id table
        (session_id_base game_type date_part time_part short_uuid) ∉ table ∧
    (generate_session_id table
          (session_id_base game_type date_part time_part short_uuid)
        = session_id_base game_type date_part time_part short_uuid ∨
      ∃ c : Nat, c ≠ 0 ∧
        generate_session_id table
            (session_id_base game_type date_part time_part short_uuid)
          = session_id_base game_type date_part time_part short_uuid
              ++ "-" ++ decimalRepr c) := by
  constructor
  · exact Nat.find_spec
      (exists_fresh_candidate table
        (session_id_base game_type date_part time_part short_uuid))
  · by_cases hc : Nat.find (exists_fresh_candidate table
        (session_id_base game_type date_part time_part short_uuid)) = 0
    · left
      simp [generate_session_id, candidateId, hc]
    · right
      exact ⟨_, hc, by simp [generate_session_id, candidateId, hc]⟩




